import Mathlib

/-!
Verification of the Daily Aggregation and AI-Orchestration core of the
food-diary web client.

The TypeScript source is embedded shallowly:
  * numbers are modelled as rationals (the source treats them as exact
    quantities; all arithmetic on them here is `ℚ` arithmetic),
  * `Math.round` is `jsRound` (round half toward positive infinity),
  * the JavaScript truthiness idioms `x || d` on numbers and strings are
    modelled explicitly (`jsOrZero`, `jsMsgOr`, `textFalsy`),
  * the React component state of `Analyzer.tsx` is an `AnalyzerState`
    record and each event handler is a state-transformer function,
  * the AI gateway operations of `geminiService.ts` are functions of the
    credential found in the environment (`Option String`) and of the
    external service's behaviour (`SvcResult`); the pair they return
    records the operation's outcome together with whether a network call
    was dispatched.  `geminiService.ts` contains several concatenated
    revisions of the module; the suffixes `_v1` .. `_v5` index them in
    file order and doc comments give the line ranges.
-/

/-- JavaScript `Math.round`: round half toward positive infinity. -/
def jsRound (q : ℚ) : ℤ := ⌊q + 1/2⌋

/-- JavaScript `x || 0` applied to an integer-valued number: `0` stays `0`,
everything else is returned unchanged (`NaN` cannot arise in the rational
model). -/
def jsOrZero (x : ℤ) : ℤ := if x = 0 then 0 else x

/-- JavaScript `s || d` applied to strings: the empty string is falsy. -/
def jsMsgOr (s d : String) : String := if s = "" then d else s

/-- JavaScript truthiness test `!resultText` on `response.text`, which is
either absent (`undefined`) or a string; both `undefined` and `""` are
falsy. -/
def textFalsy : Option String → Bool
  | none => true
  | some t => t = ""

/-- JavaScript truthiness test `!input.trim()`: the trimmed string is
empty exactly when every character is whitespace. -/
def jsBlank (s : String) : Bool := s.data.all Char.isWhitespace

/-- Meal slots, from `MealType` in `src/types.ts` (values are the strings
早餐 / 午餐 / 晚餐; the enumeration structure is what matters). -/
inductive MealType
  | MORNING
  | NOON
  | EVENING
deriving DecidableEq, Repr

/-- `NutritionData` from `src/types.ts`. -/
structure NutritionData where
  calories : ℚ
  protein : ℚ
  carbs : ℚ
  fat : ℚ
  foodItems : List String
  healthScore : ℚ
  summary : String
deriving DecidableEq, Repr

/-- `Meal` from `src/types.ts`: `NutritionData` plus identity, slot,
image and creation time. -/
structure Meal extends NutritionData where
  id : String
  type : MealType
  image : String
  timestamp : ℤ
deriving DecidableEq, Repr

/-- `DailyReport` from `src/types.ts`. -/
structure DailyReport where
  title : String
  shortSummary : String
  detailedAdvice : String
deriving DecidableEq, Repr

/-- Chat roles from `src/types.ts` (`'user' | 'model'`). -/
inductive ChatRole
  | user
  | model
deriving DecidableEq, Repr

/-- `ChatMessage` from `src/types.ts`. -/
structure ChatMessage where
  id : String
  role : ChatRole
  text : String
  timestamp : ℤ
deriving DecidableEq, Repr

/-- The accumulator update of the `meals.reduce` call in `calculateTotals`
(`src/components/Analyzer.tsx` lines 10-17).  `n` is `meals.length`, the
length of the WHOLE list being reduced, which the source reads inside the
callback on every step. -/
def totalsStep (n : ℚ) (acc : NutritionData) (meal : Meal) : NutritionData :=
  { calories := acc.calories + meal.calories
    protein := acc.protein + meal.protein
    carbs := acc.carbs + meal.carbs
    fat := acc.fat + meal.fat
    foodItems := acc.foodItems ++ meal.foodItems
    healthScore := (jsOrZero (jsRound ((acc.healthScore * n + meal.healthScore) / (n + 1))) : ℤ)
    summary := "今日总览" }

/-- The initial accumulator of the reduce (`Analyzer.tsx` lines 18-26). -/
def totalsInit : NutritionData :=
  { calories := 0, protein := 0, carbs := 0, fat := 0
    foodItems := [], healthScore := 0, summary := "" }

/-- `calculateTotals` from `src/components/Analyzer.tsx` lines 9-27:
a left fold of `totalsStep` over the meal list. -/
def calculateTotals (meals : List Meal) : NutritionData :=
  meals.foldl (totalsStep (meals.length : ℚ)) totalsInit

/-- Modelled from the spec: the health score the specification mandates,
`round(mean(m.healthScore for m in meals))`, with `0` for no meals
(spec §4.1 and §8).  Used only to compare the source arithmetic against
the specified contract. -/
def specHealthScore (meals : List Meal) : ℤ :=
  if meals = [] then 0
  else jsRound ((meals.map (fun m => m.healthScore)).sum / (meals.length : ℚ))

/-- The component state of `Analyzer` (`src/components/Analyzer.tsx`
lines 30-37): the meal list, the per-slot loading flag (a single
`MealType | null` value), the inline error, the stored report, the
report-loading flag and the details toggle. -/
structure AnalyzerState where
  meals : List Meal
  loadingSlot : Option MealType
  error : Option String
  dailyReport : Option DailyReport
  reportLoading : Bool
  showReportDetails : Bool
deriving DecidableEq, Repr

/-- The initial state of the component (all `useState` initialisers). -/
def initialState : AnalyzerState :=
  { meals := [], loadingSlot := none, error := none
    dailyReport := none, reportLoading := false, showReportDetails := false }

/-- The synchronous prefix of `onFileChange` (`Analyzer.tsx` lines 48-57),
reached once a file is chosen for an active slot: set the slot loading,
clear the error, clear the report and collapse the details. -/
def onFileChange (slot : MealType) (s : AnalyzerState) : AnalyzerState :=
  { s with loadingSlot := some slot, error := none
           dailyReport := none, showReportDetails := false }

/-- The success continuation of the in-flight analysis (`Analyzer.tsx`
lines 67-75 and the `finally` at 79-82): append the new meal and clear
the loading flag.  The report is NOT touched here. -/
def analysisSuccess (m : Meal) (s : AnalyzerState) : AnalyzerState :=
  { s with meals := s.meals ++ [m], loadingSlot := none }

/-- The failure continuation of the in-flight analysis (`Analyzer.tsx`
lines 76-82): record the fixed error string and clear the loading flag. -/
def analysisFailure (s : AnalyzerState) : AnalyzerState :=
  { s with error := some "分析失败，请重试。", loadingSlot := none }

/-- `deleteMeal` (`Analyzer.tsx` lines 91-94): keep the meals whose id
differs from the given one and clear the report. -/
def deleteMeal (id : String) (s : AnalyzerState) : AnalyzerState :=
  { s with meals := s.meals.filter (fun m => !(m.id == id))
           dailyReport := none }

/-- The synchronous prefix of `handleGenerateReport` (`Analyzer.tsx`
lines 96-98): start loading the report. -/
def reportStart (s : AnalyzerState) : AnalyzerState :=
  { s with reportLoading := true }

/-- The success continuation of `handleGenerateReport` (`Analyzer.tsx`
lines 100-102 and the `finally` at 105-107): store the report. -/
def reportSuccess (r : DailyReport) (s : AnalyzerState) : AnalyzerState :=
  { s with dailyReport := some r, reportLoading := false }

/-- The failure continuation of `handleGenerateReport` (`Analyzer.tsx`
lines 103-107): record the fixed error string. -/
def reportFailure (s : AnalyzerState) : AnalyzerState :=
  { s with error := some "生成建议失败，请重试。", reportLoading := false }

/-- The meals shown in one slot section (`Analyzer.tsx` line 113). -/
def slotMeals (s : AnalyzerState) (t : MealType) : List Meal :=
  s.meals.filter (fun m => m.type == t)

/-- The add button of every slot section carries
`disabled=\x7b!!loadingSlot\x7d` (`Analyzer.tsx` line 133): it is enabled
exactly when NO slot is loading. -/
def addButtonEnabled (s : AnalyzerState) : Bool :=
  s.loadingSlot.isNone

/-- The clickable empty-slot placeholder is rendered exactly when the slot
has no meals and is not itself loading (`Analyzer.tsx` lines 143-150). -/
def placeholderVisible (s : AnalyzerState) (t : MealType) : Bool :=
  (slotMeals s t).isEmpty && !(s.loadingSlot == some t)

/-- A file selection for slot `t` can be triggered through the UI exactly
when the (global) add button is enabled or the slot's placeholder is
visible — the two `handleFileSelect` call sites (`Analyzer.tsx` lines
131-138 and 143-150). -/
def canTrigger (s : AnalyzerState) (t : MealType) : Bool :=
  addButtonEnabled s || placeholderVisible s t

/-- The generate-report button is rendered exactly when there is at least
one meal, no stored report and no report in flight (`Analyzer.tsx`
line 268). -/
def generateButtonVisible (s : AnalyzerState) : Bool :=
  !s.meals.isEmpty && s.dailyReport.isNone && !s.reportLoading

/-- The observable events of the Analyzer session: the user-triggered
handlers together with the completions of the two kinds of in-flight
asynchronous requests. -/
inductive Event
  | fileChange (slot : MealType)
  | analysisOk (meal : Meal)
  | analysisErr
  | delete (id : String)
  | reportRequest
  | reportOk (r : DailyReport)
  | reportErr
deriving Repr

/-- One event-loop step of the Analyzer.  Each event is guarded by the
condition under which the source can fire it: file selection by the UI
trigger gate, analysis completions by an analysis being in flight for the
meal's slot, deletion by a meal with that id being rendered, the report
request by the button being rendered (plus the handler's own
`meals.length === 0` guard), and report completions by a report being in
flight.  `none` means the event cannot fire in that state. -/
def step : Event → AnalyzerState → Option AnalyzerState
  | .fileChange slot, s =>
      if canTrigger s slot then some (onFileChange slot s) else none
  | .analysisOk m, s =>
      if s.loadingSlot == some m.type then some (analysisSuccess m s) else none
  | .analysisErr, s =>
      if s.loadingSlot.isSome then some (analysisFailure s) else none
  | .delete id, s =>
      if s.meals.any (fun m => m.id == id) then some (deleteMeal id s) else none
  | .reportRequest, s =>
      if generateButtonVisible s && !s.meals.isEmpty then some (reportStart s) else none
  | .reportOk r, s =>
      if s.reportLoading then some (reportSuccess r s) else none
  | .reportErr, s =>
      if s.reportLoading then some (reportFailure s) else none

/-- Run a sequence of events from a state; `none` if some event cannot
fire where it occurs. -/
def runEvents (s : AnalyzerState) : List Event → Option AnalyzerState
  | [] => some s
  | e :: es =>
    match step e s with
    | none => none
    | some s2 => runEvents s2 es

/-- What the external generative-model service does when a request is
actually dispatched: either the transport or SDK rejects with an error
message, or a response envelope arrives whose `text` payload may be
absent (`none`) or any string (possibly empty). -/
inductive SvcResult
  | transportError (msg : String)
  | envelope (text : Option String)
deriving Repr

/-- The outcome of a gateway operation: the value returned or error
raised to the caller, together with whether a network request was
dispatched. -/
structure GatewayOutcome (α : Type) where
  result : Except String α
  networkAttempted : Bool
deriving Repr

/-- A JavaScript object cast unchecked to `DailyReport` by
`JSON.parse(...) as DailyReport`: each field may be absent. -/
structure DailyReportJs where
  title : Option String
  shortSummary : Option String
  detailedAdvice : Option String
deriving DecidableEq, Repr

/-- One wire-format conversation turn of the chat operations
(`\x7b role: string; parts: \x7b text: string \x7d[] \x7d`). -/
structure ChatTurn where
  role : String
  parts : List String
deriving DecidableEq, Repr

/-- `getAiClient` from `geminiService.ts` lines 7-16 (the lazy-client
revision): a missing `process.env.API_KEY` only logs to the console and
the client is still constructed with the empty string — the function
never fails. -/
def getAiClient (apiKey : Option String) : String :=
  apiKey.getD ""

/-- `analyzeFoodImage` of the lazy-client revision (`geminiService.ts`
lines 46-78).  Since `getAiClient` never fails, the network request is
dispatched regardless of the credential; an absent or empty `response.text`
raises `API返回内容为空`, and every caught error is re-raised as
`error.message || "未知分析错误"`. -/
def analyzeFoodImage_v1 (apiKey : Option String) (svc : SvcResult)
    (parse : String → Except String NutritionData) : GatewayOutcome NutritionData :=
  match getAiClient apiKey, svc with
  | _, SvcResult.transportError m =>
      ⟨Except.error (jsMsgOr m "未知分析错误"), true⟩
  | _, SvcResult.envelope text =>
      if textFalsy text then
        ⟨Except.error (jsMsgOr "API返回内容为空" "未知分析错误"), true⟩
      else
        match parse (text.getD "") with
        | Except.ok d => ⟨Except.ok d, true⟩
        | Except.error m => ⟨Except.error (jsMsgOr m "未知分析错误"), true⟩

/-- `generateDailyReport` of the lazy-client revision (`geminiService.ts`
lines 80-111).  An absent or empty `response.text` raises
`无法生成简报内容` (re-wrapped by the catch as `error.message || ...`,
which leaves it unchanged); the network request is always dispatched. -/
def generateDailyReport_v1 (apiKey : Option String) (svc : SvcResult)
    (parse : String → Except String DailyReportJs) : GatewayOutcome DailyReportJs :=
  match getAiClient apiKey, svc with
  | _, SvcResult.transportError m =>
      ⟨Except.error (jsMsgOr m "无法生成每日简报"), true⟩
  | _, SvcResult.envelope text =>
      if textFalsy text then
        ⟨Except.error (jsMsgOr "无法生成简报内容" "无法生成每日简报"), true⟩
      else
        match parse (text.getD "") with
        | Except.ok r => ⟨Except.ok r, true⟩
        | Except.error m => ⟨Except.error (jsMsgOr m "无法生成每日简报"), true⟩

/-- `sendChatMessage` of the lazy-client revision (`geminiService.ts`
lines 113-133): a plain string is always returned — an absent or empty
reply becomes the fixed fallback `抱歉，我暂时无法回答。` and any caught
error becomes the string `对话出错: ` followed by its message. -/
def sendChatMessage_v1 (apiKey : Option String) (history : List ChatTurn)
    (newMessage : String) (svc : SvcResult) : String × Bool :=
  match getAiClient apiKey, history, newMessage, svc with
  | _, _, _, SvcResult.transportError m => ("对话出错: " ++ m, true)
  | _, _, _, SvcResult.envelope text =>
      (match text with
       | none => "抱歉，我暂时无法回答。"
       | some t => if t = "" then "抱歉，我暂时无法回答。" else t, true)

/-- `generateDailyReport` of the fourth revision (`geminiService.ts`
lines 485-502): the client is built with `process.env.API_KEY || ''`
(never failing), and the body returns
`JSON.parse(response.text || '\x7b\x7d')` — an absent or empty payload is
silently replaced by the empty-object source text before parsing.  Any
caught error becomes the fixed message
`生成报告失败，请检查网络或 API 配置。`. -/
def generateDailyReport_v4 (apiKey : Option String) (svc : SvcResult)
    (parse : String → Except String DailyReportJs) : GatewayOutcome DailyReportJs :=
  match getAiClient apiKey, svc with
  | _, SvcResult.transportError _ =>
      ⟨Except.error "生成报告失败，请检查网络或 API 配置。", true⟩
  | _, SvcResult.envelope text =>
      match parse (jsMsgOr (text.getD "") "\x7b\x7d") with
      | Except.ok r => ⟨Except.ok r, true⟩
      | Except.error _ =>
          ⟨Except.error "生成报告失败，请检查网络或 API 配置。", true⟩

/-- The credential-missing message of the strict revision. -/
def credentialMissingMsg : String :=
  "API Key is missing. Please select an API Key via the \x27Connect\x27 button."

/-- `getAi` of the strict revision (`geminiService.ts` lines 536-542):
an absent, empty or all-whitespace `process.env.API_KEY` throws the
credential-missing error before any client exists; otherwise the trimmed
key is used. -/
def getAi (apiKey : Option String) : Except String String :=
  match apiKey with
  | none => Except.error credentialMissingMsg
  | some k =>
      if k = "" then Except.error credentialMissingMsg
      else if k.trim = "" then Except.error credentialMissingMsg
      else Except.ok k.trim

/-- Character-list prefix test (used to model substring search). -/
def listIsPref : List Char → List Char → Bool
  | [], _ => true
  | _ :: _, [] => false
  | a :: as, b :: bs => a == b && listIsPref as bs

/-- Character-list substring test (used to model substring search). -/
def listHasSub (pat : List Char) : List Char → Bool
  | [] => listIsPref pat []
  | b :: bs => listIsPref pat (b :: bs) || listHasSub pat bs

/-- JavaScript `msg.includes(pat)` as used by the strict revision's error
classification. -/
def msgIncludes (msg pat : String) : Bool :=
  listHasSub pat.data msg.data

/-- The catch-block classification of `analyzeFoodImage` in the strict
revision (`geminiService.ts` lines 605-617): the credential-missing error
is re-raised unchanged; key/403/401 errors and `entity was not found`
errors are replaced by fixed messages; anything else is re-raised as
`error.message || "分析过程中发生错误"`. -/
def classifyAnalysisError_v5 (msg : String) : String :=
  if msgIncludes msg "API Key is missing" then msg
  else if msgIncludes msg.toLower "api key" || msgIncludes msg "403" || msgIncludes msg "401" then
    "API Key 无效或未启用计费。请确保您使用的是已启用结算的项目。"
  else if msgIncludes msg "entity was not found" then
    "模型调用失败，请重新选择有效的 API Key。"
  else jsMsgOr msg "分析过程中发生错误"

/-- `analyzeFoodImage` of the strict revision (`geminiService.ts`
lines 577-618): `getAi()` runs before the request, so a missing or blank
credential raises (after classification, unchanged) with no network call;
otherwise the request is dispatched and an absent or empty payload raises
`AI 未返回任何分析数据`. -/
def analyzeFoodImage_v5 (apiKey : Option String) (svc : SvcResult)
    (parse : String → Except String NutritionData) : GatewayOutcome NutritionData :=
  match getAi apiKey with
  | Except.error m => ⟨Except.error (classifyAnalysisError_v5 m), false⟩
  | Except.ok _ =>
      match svc with
      | SvcResult.transportError m =>
          ⟨Except.error (classifyAnalysisError_v5 m), true⟩
      | SvcResult.envelope text =>
          if textFalsy text then
            ⟨Except.error (classifyAnalysisError_v5 "AI 未返回任何分析数据"), true⟩
          else
            match parse (text.getD "") with
            | Except.ok d => ⟨Except.ok d, true⟩
            | Except.error m => ⟨Except.error (classifyAnalysisError_v5 m), true⟩

/-- `generateDailyReport` of the strict revision (`geminiService.ts`
lines 623-650): `getAi()` runs before the request; every caught error is
re-raised as `error.message || "简报生成失败"`. -/
def generateDailyReport_v5 (apiKey : Option String) (svc : SvcResult)
    (parse : String → Except String DailyReportJs) : GatewayOutcome DailyReportJs :=
  match getAi apiKey with
  | Except.error m => ⟨Except.error (jsMsgOr m "简报生成失败"), false⟩
  | Except.ok _ =>
      match svc with
      | SvcResult.transportError m =>
          ⟨Except.error (jsMsgOr m "简报生成失败"), true⟩
      | SvcResult.envelope text =>
          if textFalsy text then
            ⟨Except.error (jsMsgOr "无法生成报告" "简报生成失败"), true⟩
          else
            match parse (text.getD "") with
            | Except.ok r => ⟨Except.ok r, true⟩
            | Except.error m => ⟨Except.error (jsMsgOr m "简报生成失败"), true⟩

/-- `sendChatMessage` of the strict revision (`geminiService.ts`
lines 655-674): `getAi()` runs before the request, and every caught error
— including the credential-missing one — is returned as the string
`对话错误: ` followed by its message, with no network call in the
credential case. -/
def sendChatMessage_v5 (apiKey : Option String) (history : List ChatTurn)
    (newMessage : String) (svc : SvcResult) : String × Bool :=
  match getAi apiKey, history, newMessage with
  | Except.error m, _, _ => ("对话错误: " ++ m, false)
  | Except.ok _, _, _ =>
      match svc with
      | SvcResult.transportError m => ("对话错误: " ++ m, true)
      | SvcResult.envelope text =>
          (match text with
           | none => "抱歉，无法获取回答。"
           | some t => if t = "" then "抱歉，无法获取回答。" else t, true)

/-- The wire shape of one transcript message as mapped by `handleSend`
(`ChatInterface.tsx` lines 74-77). -/
def toWireTurn (m : ChatMessage) : ChatTurn :=
  { role := match m.role with | ChatRole.user => "user" | ChatRole.model => "model"
    parts := [m.text] }

/-- `handleSend` of `ChatInterface.tsx` (lines 57-101): guard on a blank
input or a send already in flight; otherwise append the user message
optimistically, call `sendChatMessage` (lazy-client revision, which never
rejects — the component's catch branch is therefore unreachable) and
append its reply as a model turn.  `now` stands for the `Date.now()`
reads (the bot message id adds 1 as in the source). -/
def handleSend (now : ℤ) (messages : List ChatMessage) (input : String)
    (isSending : Bool) (apiKey : Option String) (svc : SvcResult) : List ChatMessage :=
  if jsBlank input || isSending then messages
  else
    let userMsg : ChatMessage :=
      { id := toString now, role := ChatRole.user, text := input, timestamp := now }
    let reply := (sendChatMessage_v1 apiKey (messages.map toWireTurn) userMsg.text svc).1
    let botMsg : ChatMessage :=
      { id := toString (now + 1), role := ChatRole.model, text := reply, timestamp := now }
    messages ++ [userMsg, botMsg]

/-- The first meal of the spec's end-to-end scenario (health score 80),
given an identity and the morning slot. -/
def meal80 : Meal :=
  { calories := 500, protein := 20, carbs := 60, fat := 15
    foodItems := ["鸡蛋"], healthScore := 80, summary := "不错"
    id := "1", type := MealType.MORNING, image := "img1", timestamp := 1 }

/-- The second meal of the spec's end-to-end scenario (health score 60),
given an identity and the noon slot. -/
def meal60 : Meal :=
  { calories := 700, protein := 30, carbs := 80, fat := 25
    foodItems := ["米饭"], healthScore := 60, summary := "一般"
    id := "2", type := MealType.NOON, image := "img2", timestamp := 2 }

/-- A further morning meal, used as the result of an in-flight analysis. -/
def mealMorning2 : Meal :=
  { calories := 300, protein := 10, carbs := 40, fat := 8
    foodItems := ["面包"], healthScore := 75, summary := "可以"
    id := "3", type := MealType.MORNING, image := "img3", timestamp := 3 }

/-- A meal whose food list contains 米饭, like `meal60`. -/
def mealRice2 : Meal :=
  { calories := 400, protein := 12, carbs := 70, fat := 6
    foodItems := ["米饭"], healthScore := 65, summary := "还行"
    id := "4", type := MealType.EVENING, image := "img4", timestamp := 4 }

/-- A concrete daily report. -/
def exReport : DailyReport :=
  { title := "今日报告", shortSummary := "总结", detailedAdvice := "建议" }

/-- A session state holding one recorded meal and nothing in flight. -/
def dayState : AnalyzerState :=
  { meals := [meal80], loadingSlot := none, error := none
    dailyReport := none, reportLoading := false, showReportDetails := false }

/-- A session state in which the morning slot is loading while the noon
slot already holds a meal. -/
def loadingState : AnalyzerState :=
  { meals := [meal60], loadingSlot := some MealType.MORNING, error := none
    dailyReport := none, reportLoading := false, showReportDetails := false }

/-- A concrete nutrition record, used as a parsed analysis result. -/
def sampleNutrition : NutritionData :=
  { calories := 250, protein := 9, carbs := 30, fat := 7
    foodItems := ["牛奶"], healthScore := 82, summary := "健康" }

/-- The external `JSON.parse` on the inputs reached here: the
empty-object source text parses to an object carrying none of the
`DailyReport` fields; other inputs are rejected. -/
def jsonParseEmptyObject : String → Except String DailyReportJs :=
  fun s =>
    if s = "\x7b\x7d" then Except.ok { title := none, shortSummary := none, detailedAdvice := none }
    else Except.error "Unexpected end of JSON input"

/-- Auxiliary: the left fold of `totalsStep` adds the four numeric fields
as exact sums and concatenates the food lists, whatever the accumulator. -/
lemma foldl_totalsStep_fields (n : ℚ) (ms : List Meal) : ∀ acc : NutritionData,
    (List.foldl (totalsStep n) acc ms).calories = acc.calories + (ms.map (fun m => m.calories)).sum ∧
    (List.foldl (totalsStep n) acc ms).protein = acc.protein + (ms.map (fun m => m.protein)).sum ∧
    (List.foldl (totalsStep n) acc ms).carbs = acc.carbs + (ms.map (fun m => m.carbs)).sum ∧
    (List.foldl (totalsStep n) acc ms).fat = acc.fat + (ms.map (fun m => m.fat)).sum ∧
    (List.foldl (totalsStep n) acc ms).foodItems = acc.foodItems ++ (ms.map (fun m => m.foodItems)).flatten := by
  induction ms with
  | nil => intro acc; simp
  | cons a t ih =>
    intro acc
    obtain ⟨h1, h2, h3, h4, h5⟩ := ih (totalsStep n acc a)
    rw [List.foldl_cons]
    refine ⟨?_, ?_, ?_, ?_, ?_⟩
    · rw [h1]; show (totalsStep n acc a).calories + _ = _; simp [totalsStep]; ring
    · rw [h2]; show (totalsStep n acc a).protein + _ = _; simp [totalsStep]; ring
    · rw [h3]; show (totalsStep n acc a).carbs + _ = _; simp [totalsStep]; ring
    · rw [h4]; show (totalsStep n acc a).fat + _ = _; simp [totalsStep]; ring
    · rw [h5]; show (totalsStep n acc a).foodItems ++ _ = _; simp [totalsStep]

/-- Auxiliary: once the fold takes at least one step, the summary field
holds the fixed placeholder. -/
lemma foldl_totalsStep_summary (n : ℚ) (ms : List Meal) : ∀ acc : NutritionData, ms ≠ [] →
    (List.foldl (totalsStep n) acc ms).summary = "今日总览" := by
  induction ms with
  | nil => intro acc h; exact absurd rfl h
  | cons a t ih =>
    intro acc _
    cases t with
    | nil => simp [totalsStep]
    | cons b t2 =>
      rw [List.foldl_cons]
      exact ih _ (by simp)

/-- Claim C1: on the spec's own scenario — health scores 80 and 60 — the
source's `calculateTotals` yields a totals health score of 38, while the
spec-mandated rounded mean is 70, and reversing the two meals changes the
source's answer to 40: the implemented health score is neither the rounded
mean nor order-invariant, because the reduce callback divides by
`meals.length + 1` with `meals.length` frozen at the full list length. -/
theorem calculateTotals_healthScore_not_mean :
    (calculateTotals [meal80, meal60]).healthScore = 38 ∧
    specHealthScore [meal80, meal60] = 70 ∧
    (calculateTotals [meal60, meal80]).healthScore = 40 := by
  refine ⟨?_, ?_, ?_⟩
  · norm_num [calculateTotals, totalsStep, totalsInit, jsRound, jsOrZero, meal80, meal60]
  · rw [specHealthScore, if_neg (by simp)]
    norm_num [jsRound, meal80, meal60]
  · norm_num [calculateTotals, totalsStep, totalsInit, jsRound, jsOrZero, meal80, meal60]

/-- Claim C2: for every meal list, the aggregated calories equal the exact
sum of the meals' calories — likewise protein, carbs and fat —, each of
the four sums is invariant under permutation of the list, and each is
non-negative whenever the corresponding input fields all are. -/
theorem calculateTotals_sums_exact (meals meals2 : List Meal) (hperm : meals.Perm meals2) :
    ((calculateTotals meals).calories = (meals.map (fun m => m.calories)).sum ∧
     (calculateTotals meals).protein = (meals.map (fun m => m.protein)).sum ∧
     (calculateTotals meals).carbs = (meals.map (fun m => m.carbs)).sum ∧
     (calculateTotals meals).fat = (meals.map (fun m => m.fat)).sum) ∧
    ((calculateTotals meals).calories = (calculateTotals meals2).calories ∧
     (calculateTotals meals).protein = (calculateTotals meals2).protein ∧
     (calculateTotals meals).carbs = (calculateTotals meals2).carbs ∧
     (calculateTotals meals).fat = (calculateTotals meals2).fat) ∧
    ((∀ m ∈ meals, 0 ≤ m.calories) → 0 ≤ (calculateTotals meals).calories) ∧
    ((∀ m ∈ meals, 0 ≤ m.protein) → 0 ≤ (calculateTotals meals).protein) ∧
    ((∀ m ∈ meals, 0 ≤ m.carbs) → 0 ≤ (calculateTotals meals).carbs) ∧
    ((∀ m ∈ meals, 0 ≤ m.fat) → 0 ≤ (calculateTotals meals).fat) := by
  obtain ⟨c1, p1, b1, f1, _⟩ := foldl_totalsStep_fields (meals.length : ℚ) meals totalsInit
  obtain ⟨c2, p2, b2, f2, _⟩ := foldl_totalsStep_fields (meals2.length : ℚ) meals2 totalsInit
  have e1 : (calculateTotals meals).calories = (meals.map (fun m => m.calories)).sum := by
    rw [calculateTotals, c1]; simp [totalsInit]
  have e2 : (calculateTotals meals).protein = (meals.map (fun m => m.protein)).sum := by
    rw [calculateTotals, p1]; simp [totalsInit]
  have e3 : (calculateTotals meals).carbs = (meals.map (fun m => m.carbs)).sum := by
    rw [calculateTotals, b1]; simp [totalsInit]
  have e4 : (calculateTotals meals).fat = (meals.map (fun m => m.fat)).sum := by
    rw [calculateTotals, f1]; simp [totalsInit]
  have g1 : (calculateTotals meals2).calories = (meals2.map (fun m => m.calories)).sum := by
    rw [calculateTotals, c2]; simp [totalsInit]
  have g2 : (calculateTotals meals2).protein = (meals2.map (fun m => m.protein)).sum := by
    rw [calculateTotals, p2]; simp [totalsInit]
  have g3 : (calculateTotals meals2).carbs = (meals2.map (fun m => m.carbs)).sum := by
    rw [calculateTotals, b2]; simp [totalsInit]
  have g4 : (calculateTotals meals2).fat = (meals2.map (fun m => m.fat)).sum := by
    rw [calculateTotals, f2]; simp [totalsInit]
  refine ⟨⟨e1, e2, e3, e4⟩, ⟨?_, ?_, ?_, ?_⟩, ?_, ?_, ?_, ?_⟩
  · rw [e1, g1, (hperm.map (fun m => m.calories)).sum_eq]
  · rw [e2, g2, (hperm.map (fun m => m.protein)).sum_eq]
  · rw [e3, g3, (hperm.map (fun m => m.carbs)).sum_eq]
  · rw [e4, g4, (hperm.map (fun m => m.fat)).sum_eq]
  · intro h; rw [e1]
    refine List.sum_nonneg ?_
    intro x hx; obtain ⟨m, hm, rfl⟩ := List.mem_map.mp hx; exact h m hm
  · intro h; rw [e2]
    refine List.sum_nonneg ?_
    intro x hx; obtain ⟨m, hm, rfl⟩ := List.mem_map.mp hx; exact h m hm
  · intro h; rw [e3]
    refine List.sum_nonneg ?_
    intro x hx; obtain ⟨m, hm, rfl⟩ := List.mem_map.mp hx; exact h m hm
  · intro h; rw [e4]
    refine List.sum_nonneg ?_
    intro x hx; obtain ⟨m, hm, rfl⟩ := List.mem_map.mp hx; exact h m hm

/-- Claim C2, witness: the scenario meals instantiate the sum, the
permutation-invariance and the non-negativity statements. -/
theorem calculateTotals_sums_exact_witness :
    (calculateTotals [meal80, meal60]).calories = ([meal80, meal60].map (fun m => m.calories)).sum ∧
    (calculateTotals [meal80, meal60]).calories = (calculateTotals [meal60, meal80]).calories ∧
    0 ≤ (calculateTotals [meal80, meal60]).calories := by
  have h := calculateTotals_sums_exact [meal80, meal60] [meal60, meal80]
    (List.Perm.swap meal60 meal80 [])
  refine ⟨h.1.1, h.2.1.1, h.2.2.1 ?_⟩
  intro m hm
  simp only [List.mem_cons, List.not_mem_nil, or_false] at hm
  rcases hm with rfl | rfl <;> norm_num [meal80, meal60]

/-- Claim C3, counterexample: aggregating the empty meal list yields the
empty summary string, not the fixed placeholder — the reduce never runs,
so the initial accumulator's `summary: ""` is returned as is. -/
theorem calculateTotals_nil_summary_not_placeholder :
    (calculateTotals []).summary = "" ∧ (calculateTotals []).summary ≠ "今日总览" :=
  ⟨rfl, by decide⟩

/-- Claim C3, amended: aggregating the empty meal list returns the
all-zero record whose summary is the EMPTY string; the fixed placeholder
今日总览 is the summary for every non-empty meal list.  (The aggregator is
a total function by construction.) -/
theorem calculateTotals_empty_and_placeholder (meals : List Meal) (h : meals ≠ []) :
    calculateTotals [] =
      { calories := 0, protein := 0, carbs := 0, fat := 0
        foodItems := [], healthScore := 0, summary := "" } ∧
    (calculateTotals meals).summary = "今日总览" :=
  ⟨rfl, foldl_totalsStep_summary _ meals totalsInit h⟩

/-- Claim C3, amended, witness: a one-meal list carries the placeholder. -/
theorem calculateTotals_empty_and_placeholder_witness :
    (calculateTotals [meal80]).summary = "今日总览" :=
  (calculateTotals_empty_and_placeholder [meal80] (by simp)).2

/-- Claim C4, counterexample: two meals that both contain 米饭 aggregate
to a food list in which 米饭 occurs twice — concatenation, not set
union. -/
theorem calculateTotals_foodItems_not_deduplicated :
    (calculateTotals [meal60, mealRice2]).foodItems = ["米饭", "米饭"] ∧
    (calculateTotals [meal60, mealRice2]).foodItems.count "米饭" = 2 :=
  ⟨rfl, rfl⟩

/-- Claim C4, amended: the aggregated food list is the in-order
concatenation of all meals' food lists, duplicates retained. -/
theorem calculateTotals_foodItems_concat (meals : List Meal) :
    (calculateTotals meals).foodItems = (meals.map (fun m => m.foodItems)).flatten := by
  have h := (foldl_totalsStep_fields (meals.length : ℚ) meals totalsInit).2.2.2.2
  rw [calculateTotals, h]; simp [totalsInit]

/-- Claim C5, amended: deleting a meal unconditionally clears the stored
report, and so does selecting a new file (the add path clears the report
at selection time, before the analysis runs); the meal-append step on
analysis success, however, leaves the report exactly as it was. -/
theorem mealList_mutation_report_reset (s : AnalyzerState) (slot : MealType)
    (id : String) (m : Meal) :
    (deleteMeal id s).dailyReport = none ∧
    (onFileChange slot s).dailyReport = none ∧
    (analysisSuccess m s).dailyReport = s.dailyReport :=
  ⟨rfl, rfl, rfl⟩

/-- Claim C5, counterexample: starting from a one-meal session, select a
file for the morning slot, then request and receive a report while the
analysis is still in flight, then let the analysis succeed: the meal list
has grown to two meals yet the report is still stored — the meal-list
mutation did not reset the report state. -/
theorem report_survives_meal_append :
    (runEvents dayState [Event.fileChange MealType.MORNING, Event.reportRequest,
        Event.reportOk exReport, Event.analysisOk mealMorning2]).map
      (fun s => (s.dailyReport, s.meals.length)) = some (some exReport, 2) := rfl

/-- Claim C9, amended: while an analysis is loading for a slot, no file
selection can be triggered for that same slot (the add button is disabled
and the placeholder is hidden); the add button is in fact disabled for
EVERY slot, since the guard is the single global loading flag; and once
the in-flight analysis completes the gate reopens for every slot, so
sequential additions each trigger exactly one analysis. -/
theorem slot_trigger_gate (s s2 : AnalyzerState) (t u : MealType) (m : Meal)
    (h : s.loadingSlot = some t) :
    canTrigger s t = false ∧
    addButtonEnabled s = false ∧
    (step (Event.analysisOk m) s = some s2 → canTrigger s2 u = true) := by
  refine ⟨?_, ?_, ?_⟩
  · simp [canTrigger, addButtonEnabled, placeholderVisible, h]
  · simp [addButtonEnabled, h]
  · intro h2
    simp only [step] at h2
    split at h2
    · cases h2
      simp [canTrigger, addButtonEnabled, analysisSuccess]
    · cases h2

/-- Claim C9, amended, witness: right after a morning file selection the
morning slot cannot be triggered again. -/
theorem slot_trigger_gate_witness :
    canTrigger (onFileChange MealType.MORNING dayState) MealType.MORNING = false :=
  (slot_trigger_gate (onFileChange MealType.MORNING dayState)
      (analysisSuccess mealMorning2 (onFileChange MealType.MORNING dayState))
      MealType.MORNING MealType.NOON mealMorning2 rfl).1

/-- Claim C9, counterexample: with the morning slot loading and a meal
already recorded at noon, the noon slot cannot be triggered either — its
add button is disabled by the global loading flag and its placeholder is
not rendered — so requests for other slots are NOT permitted while one
slot is loading. -/
theorem other_slot_not_permitted :
    loadingState.loadingSlot = some MealType.MORNING ∧
    (slotMeals loadingState MealType.NOON).length = 1 ∧
    canTrigger loadingState MealType.NOON = false :=
  ⟨rfl, rfl, rfl⟩

/-- Claim C10: deleting by id removes exactly the meals carrying that id —
a meal survives the deletion iff it was present and its id differs — the
list is left unchanged when no meal matches, and the stored report is
cleared to null in every case. -/
theorem deleteMeal_removes_by_id (s : AnalyzerState) (id : String) :
    (deleteMeal id s).dailyReport = none ∧
    (∀ m : Meal, m ∈ (deleteMeal id s).meals ↔ m ∈ s.meals ∧ m.id ≠ id) ∧
    ((∀ m ∈ s.meals, m.id ≠ id) → (deleteMeal id s).meals = s.meals) := by
  refine ⟨rfl, ?_, ?_⟩
  · intro m
    simp [deleteMeal, List.mem_filter]
  · intro h
    show List.filter _ s.meals = s.meals
    rw [List.filter_eq_self]
    intro a ha
    simp [h a ha]

/-- Claim C10, witness: deleting an id that matches no meal leaves the
one-meal list unchanged and still clears the report. -/
theorem deleteMeal_removes_by_id_witness :
    (deleteMeal "9" dayState).dailyReport = none ∧
    (deleteMeal "9" dayState).meals = dayState.meals := by
  have h := deleteMeal_removes_by_id dayState "9"
  refine ⟨h.1, h.2.2 ?_⟩
  intro m hm
  simp only [dayState, List.mem_cons, List.not_mem_nil, or_false] at hm
  subst hm
  decide

/-- Claim C6, amended: in the strict revision (`getAi`, lines 536-542), an
absent or empty credential makes all three operations fail before any
network call — analysis and report raise the credential-missing error,
chat returns it embedded in its error string — whereas in the lazy-client
revision (`getAiClient`, lines 7-16) the network request is dispatched
even with the credential absent. -/
theorem credential_gate (apiKey : Option String) (svc : SvcResult)
    (parseN : String → Except String NutritionData)
    (parseR : String → Except String DailyReportJs)
    (history : List ChatTurn) (msg : String)
    (h : apiKey = none ∨ apiKey = some "") :
    (analyzeFoodImage_v5 apiKey svc parseN).result = Except.error credentialMissingMsg ∧
    (analyzeFoodImage_v5 apiKey svc parseN).networkAttempted = false ∧
    (generateDailyReport_v5 apiKey svc parseR).result = Except.error credentialMissingMsg ∧
    (generateDailyReport_v5 apiKey svc parseR).networkAttempted = false ∧
    sendChatMessage_v5 apiKey history msg svc = ("对话错误: " ++ credentialMissingMsg, false) ∧
    (analyzeFoodImage_v1 apiKey svc parseN).networkAttempted = true := by
  have hga : getAi apiKey = Except.error credentialMissingMsg := by
    rcases h with rfl | rfl <;> rfl
  have hcl : classifyAnalysisError_v5 credentialMissingMsg = credentialMissingMsg := rfl
  have hjm : jsMsgOr credentialMissingMsg "简报生成失败" = credentialMissingMsg := rfl
  refine ⟨?_, ?_, ?_, ?_, ?_, ?_⟩
  · simp [analyzeFoodImage_v5, hga, hcl]
  · simp [analyzeFoodImage_v5, hga]
  · simp [generateDailyReport_v5, hga, hjm]
  · simp [generateDailyReport_v5, hga]
  · simp [sendChatMessage_v5, hga]
  · cases svc with
    | transportError m => rfl
    | envelope text =>
      simp only [analyzeFoodImage_v1]
      split
      · rfl
      · cases parseN (text.getD "") <;> rfl

/-- Claim C6, amended, witness: with no credential, the strict revision's
analysis dispatches no network request. -/
theorem credential_gate_witness :
    (analyzeFoodImage_v5 none (SvcResult.envelope (some "x"))
        (fun _ => Except.error "e")).networkAttempted = false :=
  (credential_gate none (SvcResult.envelope (some "x")) (fun _ => Except.error "e")
      (fun _ => Except.error "e") [] "hi" (Or.inl rfl)).2.1

/-- Claim C6, counterexample: in the lazy-client revision, `AnalyzeImage`
with an absent credential still dispatches the network request and — when
the service happens to answer — even succeeds, instead of failing
immediately with a credential-missing error. -/
theorem missing_key_does_not_fail_fast :
    (analyzeFoodImage_v1 none (SvcResult.envelope (some "ok"))
        (fun _ => Except.ok sampleNutrition)).networkAttempted = true ∧
    (analyzeFoodImage_v1 none (SvcResult.envelope (some "ok"))
        (fun _ => Except.ok sampleNutrition)).result = Except.ok sampleNutrition :=
  ⟨rfl, rfl⟩

/-- Claim C7, amended: on an absent or empty payload the revision at lines
104-106 raises 无法生成简报内容 to the caller, but the revision at line
498 substitutes the empty-object source text and silently returns whatever
it parses to — the field-less default report, not an error. -/
theorem report_empty_payload_behaviour (apiKey : Option String)
    (parse : String → Except String DailyReportJs) (text : Option String)
    (r : DailyReportJs) (h : textFalsy text = true)
    (hp : parse "\x7b\x7d" = Except.ok r) :
    (generateDailyReport_v1 apiKey (SvcResult.envelope text) parse).result
      = Except.error "无法生成简报内容" ∧
    (generateDailyReport_v4 apiKey (SvcResult.envelope text) parse).result = Except.ok r := by
  constructor
  · simp [generateDailyReport_v1, h, jsMsgOr]
  · have htxt : jsMsgOr (text.getD "") "\x7b\x7d" = "\x7b\x7d" := by
      cases text with
      | none => rfl
      | some t =>
        have ht : t = "" := by simpa [textFalsy] using h
        subst ht; rfl
    simp [generateDailyReport_v4, htxt, hp]

/-- Claim C7, amended, witness: an empty-string payload makes the
first-revision report generator raise its empty-payload error. -/
theorem report_empty_payload_behaviour_witness :
    (generateDailyReport_v1 (some "key") (SvcResult.envelope (some "")) jsonParseEmptyObject).result
      = Except.error "无法生成简报内容" :=
  (report_empty_payload_behaviour (some "key") jsonParseEmptyObject (some "")
      { title := none, shortSummary := none, detailedAdvice := none } rfl rfl).1

/-- Claim C7, counterexample: the revision at line 498, given an
empty-string payload, returns the field-less report parsed from the
substituted empty-object text — no error reaches the caller. -/
theorem report_empty_payload_not_raised :
    (generateDailyReport_v4 (some "key") (SvcResult.envelope (some "")) jsonParseEmptyObject).result
      = Except.ok { title := none, shortSummary := none, detailedAdvice := none } := rfl

/-- Claim C8: `sendChatMessage` always returns a plain string — the fixed
fallback when the service reply is absent or empty, and an error-prefixed
string when the call fails — and `handleSend` extends the transcript by
exactly the optimistic user message followed by a model turn carrying that
string; the user message is never rolled back. -/
theorem chat_never_fails (apiKey : Option String) (history : List ChatTurn)
    (newMessage : String) (m : String) (now : ℤ) (messages : List ChatMessage)
    (input : String) (svc : SvcResult) (h : jsBlank input = false) :
    (sendChatMessage_v1 apiKey history newMessage (SvcResult.envelope none)).1
      = "抱歉，我暂时无法回答。" ∧
    (sendChatMessage_v1 apiKey history newMessage (SvcResult.envelope (some ""))).1
      = "抱歉，我暂时无法回答。" ∧
    (sendChatMessage_v1 apiKey history newMessage (SvcResult.transportError m)).1
      = "对话出错: " ++ m ∧
    handleSend now messages input false apiKey svc =
      messages ++
        [{ id := toString now, role := ChatRole.user, text := input, timestamp := now },
         { id := toString (now + 1), role := ChatRole.model
           text := (sendChatMessage_v1 apiKey (messages.map toWireTurn) input svc).1
           timestamp := now }] := by
  refine ⟨rfl, rfl, rfl, ?_⟩
  simp [handleSend, h]

/-- Claim C8, witness: sending 你好 against an empty-reply service appends
the user turn and the fixed fallback as a model turn. -/
theorem chat_never_fails_witness :
    handleSend 5 [] "你好" false none (SvcResult.envelope (some "")) =
      ([] : List ChatMessage) ++
        [{ id := toString (5 : ℤ), role := ChatRole.user, text := "你好", timestamp := 5 },
         { id := toString ((5 : ℤ) + 1), role := ChatRole.model
           text := (sendChatMessage_v1 none (([] : List ChatMessage).map toWireTurn) "你好"
             (SvcResult.envelope (some ""))).1
           timestamp := 5 }] :=
  (chat_never_fails none [] "x" "m" 5 [] "你好" (SvcResult.envelope (some "")) (by decide)).2.2.2
